import Mathlib

/-
  Verification of the request pipeline in `internal/api/requests.go`
  (rate-limited, cached fetch of a tracker-style API).

  The four functions of the source file — `makeRequest`,
  `initiateAPIRequest`, `fetchResponseData`, `determineAPIBase` — are
  shallowly embedded as pure Lean functions over an explicit `World`
  state (the shared mutable collaborators: cache store and rate-limiter
  tokens) and an `Env` of external oracles (limiter registry, credential
  provider, HTTP transport, JSON decoder).  Each invocation additionally
  produces a trace of `Effect`s (limiter queries, HTTP calls, credential
  lookups, log emissions) so that call-counting properties can be stated.
-/

set_option autoImplicit false

namespace Redacted

/-- Modelled from the spec: the `Torrent` payload variant (`release_name`,
`username`); its Go definition is outside `src/`. -/
structure Torrent where
  ReleaseName : String
  Username : String
deriving DecidableEq

/-- Modelled from the spec: the polymorphic payload container of the
envelope (`response.torrent?`); its Go definition is outside `src/`. -/
structure ResponsePayload where
  Torrent : Option Torrent
deriving DecidableEq

/-- Modelled from the spec: the decoded API response envelope with
`Status`, `Error` and `Response` fields; its Go definition is outside
`src/`.  A Go nil pointer for the torrent is `Option.none`. -/
structure ResponseData where
  Status : String
  Error : String
  Response : ResponsePayload
deriving DecidableEq

/-- Modelled from the spec: `RequestData` carries the indexer name and a
credential reference used by the external API-key provider; its Go
definition is outside `src/`. -/
structure RequestData where
  Indexer : String
  CredentialRef : String
deriving DecidableEq

/-- Go errors produced by the pipeline, kept structurally so that the
`fmt.Errorf`-with-`%w` wrapping chains of the source are observable.
Constructors carrying a `msg` hold the rendered message of an error that
originates in an external collaborator (stdlib HTTP client, `io.ReadAll`,
`json.Unmarshal`, credential provider). -/
inductive GoError where
  /-- `fmt.Errorf("too many requests")`, requests.go line 21. -/
  | tooManyRequests
  /-- `fmt.Errorf("error making HTTP request to %s: %w", endpoint, err)`,
  requests.go line 26; wraps the `http.NewRequest` error. -/
  | requestBuildError (endpoint : String) (msg : String)
  /-- raw error returned by `http.DefaultClient.Do`, requests.go line 39. -/
  | transportError (msg : String)
  /-- raw error returned by `io.ReadAll`, requests.go line 46. -/
  | readError (msg : String)
  /-- raw error returned by `json.Unmarshal`, requests.go line 51. -/
  | decodeError (msg : String)
  /-- `fmt.Errorf("API error from %s: %s", indexer, responseData.Error)`,
  requests.go line 62. -/
  | apiError (indexer : String) (errText : String)
  /-- `fmt.Errorf("could not get rate limiter for indexer: %s", indexer)`,
  requests.go line 73. -/
  | limiterUnavailable (indexer : String)
  /-- `fmt.Errorf("initiateAPIRequest failed for endpoint %s: %w", ...)`,
  requests.go line 79. -/
  | initiationFailed (endpoint : String) (inner : GoError)
  /-- raw error returned by the external `getAPIKey` provider, passed
  through at requests.go line 106. -/
  | credentialError (msg : String)
  /-- `fmt.Errorf("error fetching %s data for ID %d: %w", action, id, err)`,
  requests.go line 111. -/
  | fetchFailed (action : String) (id : Int) (inner : GoError)
  /-- `fmt.Errorf("invalid path")`, requests.go line 130. -/
  | invalidPath
deriving DecidableEq

/-- The string a Go `error` renders to (`err.Error()`), with `%w`
wrapping rendering the inner error after the context prefix, exactly as
`fmt.Errorf` does. -/
def GoError.message : GoError → String
  | .tooManyRequests => "too many requests"
  | .requestBuildError endpoint msg =>
      "error making HTTP request to " ++ endpoint ++ ": " ++ msg
  | .transportError msg => msg
  | .readError msg => msg
  | .decodeError msg => msg
  | .apiError indexer errText => "API error from " ++ indexer ++ ": " ++ errText
  | .limiterUnavailable indexer =>
      "could not get rate limiter for indexer: " ++ indexer
  | .initiationFailed endpoint inner =>
      "initiateAPIRequest failed for endpoint " ++ endpoint ++ ": " ++ inner.message
  | .credentialError msg => msg
  | .fetchFailed action id inner =>
      "error fetching " ++ action ++ " data for ID " ++ toString id ++ ": " ++ inner.message
  | .invalidPath => "invalid path"

/-- True exactly on errors wrapped with id/action context (`FetchFailed`). -/
def GoError.hasFetchContext : GoError → Bool
  | .fetchFailed _ _ _ => true
  | _ => false

/-- Result of reading the HTTP response body (`io.ReadAll`). -/
inductive BodyRead where
  | ok (body : String)
  | err (msg : String)
deriving DecidableEq

/-- An HTTP response as seen by the executor: a status code and a body
read.  The source never inspects `resp.StatusCode`; it is carried here so
that that very fact can be stated. -/
structure HttpResp where
  statusCode : Nat
  bodyRead : BodyRead
deriving DecidableEq

/-- Result of `http.DefaultClient.Do`: a response, or a transport-level
error (DNS, connection refused, TLS, timeout). -/
inductive TransportResult where
  | ok (resp : HttpResp)
  | err (msg : String)
deriving DecidableEq

/-- Observable effects of one pipeline invocation, in order. -/
inductive Effect where
  /-- one `limiter.Allow()` query on the named limiter instance. -/
  | limiterQuery (limiter : String)
  /-- one outbound HTTP call (`http.DefaultClient.Do`) to the endpoint. -/
  | httpCall (endpoint : String)
  /-- one `getAPIKey` invocation on the credential provider. -/
  | credentialLookup
  | logWarn (msg : String)
  | logError (msg : String)
  | logDebug (msg : String)
deriving DecidableEq

/-- Modelled from the spec: the shared mutable collaborators.  The cache
store is external to `src/`; the spec requires lookup and population to
be "scoped by `requestData.Indexer`" (two indexers never collide), so the
cache is an association list keyed by (indexer scope, cache key).  The
rate limiters are external token buckets keyed by limiter instance. -/
structure World where
  cache : List ((String × String) × ResponseData)
  tokens : List (String × Nat)
deriving DecidableEq

/-- Modelled from the spec: `checkCache(key, indexerScope)` of the
external cache store — first entry under the given indexer scope and key. -/
def lookupCache (indexer key : String) :
    List ((String × String) × ResponseData) → Option ResponseData
  | [] => none
  | (ik, rd) :: rest =>
      if ik.1 == indexer && ik.2 == key then some rd else lookupCache indexer key rest

/-- Modelled from the spec: `cacheResponseData` of the external cache
store, populating the entry for the given key under the indexer scope. -/
def cacheResponseData (key indexer : String) (rd : ResponseData) (w : World) : World :=
  { w with cache := ((indexer, key), rd) :: w.cache }

/-- Modelled from the spec: the non-blocking `limiter.Allow()` of a
token-bucket limiter — true and one token consumed when a token is
available now, false otherwise; it never waits. -/
def consumeToken (limiter : String) : List (String × Nat) → Bool × List (String × Nat)
  | [] => (false, [])
  | (l, n) :: rest =>
      if l == limiter then
        if n == 0 then (false, (l, n) :: rest) else (true, (l, n - 1) :: rest)
      else
        let (b, rest') := consumeToken limiter rest
        (b, (l, n) :: rest')

/-- The external collaborators that are pure oracles for one call:
limiter registry (`getLimiter`), credential provider (`getAPIKey`),
`http.NewRequest` fallibility, HTTP transport (endpoint and
`Authorization` key to result), and `json.Unmarshal` into the envelope. -/
structure Env where
  getLimiter : String → Option String
  getAPIKey : RequestData → Except String String
  newRequestErr : String → Option String
  transport : String → String → TransportResult
  unmarshal : String → Except String ResponseData

/-- Equality on `Except` is decidable when it is on both components. -/
def exceptDecEq {ε α : Type} [DecidableEq ε] [DecidableEq α] :
    DecidableEq (Except ε α) := fun a b =>
  match a, b with
  | .error e₁, .error e₂ =>
      if h : e₁ = e₂ then .isTrue (h ▸ rfl) else .isFalse (fun hc => h (Except.error.inj hc))
  | .error _, .ok _ => .isFalse Except.noConfusion
  | .ok _, .error _ => .isFalse Except.noConfusion
  | .ok a₁, .ok a₂ =>
      if h : a₁ = a₂ then .isTrue (h ▸ rfl) else .isFalse (fun hc => h (Except.ok.inj hc))

instance {ε α : Type} [DecidableEq ε] [DecidableEq α] : DecidableEq (Except ε α) :=
  exceptDecEq

/-- Result of one embedded invocation: the Go return value, the world
after the call, and the trace of effects of the call. -/
structure Outcome where
  res : Except GoError ResponseData
  world : World
  effects : List Effect
deriving DecidableEq

/-- Modelled from the spec: Go `html.UnescapeString` (standard library,
outside `src/`), restricted to the basic named entities; the display-only
claim does not depend on the entity table being complete. -/
def unescapeChars : List Char → List Char
  | [] => []
  | '&' :: 'a' :: 'm' :: 'p' :: ';' :: rest => '&' :: unescapeChars rest
  | '&' :: 'l' :: 't' :: ';' :: rest => '<' :: unescapeChars rest
  | '&' :: 'g' :: 't' :: ';' :: rest => '>' :: unescapeChars rest
  | '&' :: 'q' :: 'u' :: 'o' :: 't' :: ';' :: rest => '"' :: unescapeChars rest
  | c :: rest => c :: unescapeChars rest

/-- String form of `html.UnescapeString`. -/
def htmlUnescape (s : String) : String := String.mk (unescapeChars s.data)

/-- requests.go lines 17-66: `makeRequest` sends one rate-gated HTTP GET
with the API key in the `Authorization` header (carried by the transport
oracle), reads and JSON-decodes the body, and validates the envelope
status.  The Go `target` is always `*ResponseData` at the single call
site, so the embedding is monomorphic
and the defensive `invalid target type` branch (lines 54-58) is
unreachable.  The 10-second context timeout surfaces as a transport
error from `Do`. -/
def makeRequest (endpoint apiKey limiter indexer : String) (env : Env) (w : World) :
    Outcome :=
  let allowed := (consumeToken limiter w.tokens).1
  let w1 : World := { w with tokens := (consumeToken limiter w.tokens).2 }
  if !allowed then
    ⟨.error .tooManyRequests, w1,
      [.limiterQuery limiter, .logWarn (indexer ++ ": Too many requests")]⟩
  else
    match env.newRequestErr endpoint with
    | some msg =>
        ⟨.error (.requestBuildError endpoint msg), w1,
          [.limiterQuery limiter,
            .logError ("fetchAPI error: " ++ (GoError.requestBuildError endpoint msg).message)]⟩
    | none =>
        match env.transport endpoint apiKey with
        | .err msg =>
            ⟨.error (.transportError msg), w1,
              [.limiterQuery limiter, .httpCall endpoint,
                .logError ("fetchAPI error: " ++ msg)]⟩
        | .ok resp =>
            match resp.bodyRead with
            | .err msg =>
                ⟨.error (.readError msg), w1,
                  [.limiterQuery limiter, .httpCall endpoint,
                    .logError ("fetchAPI error: " ++ msg)]⟩
            | .ok body =>
                match env.unmarshal body with
                | .error msg =>
                    ⟨.error (.decodeError msg), w1,
                      [.limiterQuery limiter, .httpCall endpoint,
                        .logError ("fetchAPI error: " ++ msg)]⟩
                | .ok rd =>
                    if rd.Status != "success" then
                      ⟨.error (.apiError indexer rd.Error), w1,
                        [.limiterQuery limiter, .httpCall endpoint,
                          .logWarn ("API error from " ++ indexer ++ ": " ++ rd.Error)]⟩
                    else
                      ⟨.ok rd, w1, [.limiterQuery limiter, .httpCall endpoint]⟩

/-- The debug line logged for a successful torrent action,
requests.go line 88. -/
def releaseLogLine (indexer : String) (t : Torrent) (id : Int) : String :=
  "[" ++ indexer ++ "] Checking release: " ++ htmlUnescape t.ReleaseName ++
    " - (Uploader: " ++ t.Username ++ ") (TorrentID: " ++ toString id ++ ")"

/-- The endpoint built at requests.go line 76:
`fmt.Sprintf("%s?action=%s&id=%d", apiBase, action, id)`. -/
def queryEndpoint (apiBase action : String) (id : Int) : String :=
  apiBase ++ "?action=" ++ action ++ "&id=" ++ toString id

/-- requests.go lines 69-92: `initiateAPIRequest` resolves the limiter,
builds the endpoint `apiBase?action=<action>&id=<id>`, delegates to
`makeRequest` (wrapping failures with endpoint context), and on success
for the torrent action logs the HTML-unescaped release name. -/
def initiateAPIRequest (id : Int) (action apiKey apiBase indexer : String)
    (env : Env) (w : World) : Outcome :=
  match env.getLimiter indexer with
  | none => ⟨.error (.limiterUnavailable indexer), w, []⟩
  | some limiter =>
      let endpoint := queryEndpoint apiBase action id
      let o := makeRequest endpoint apiKey limiter indexer env w
      match o.res with
      | .error e =>
          ⟨.error (.initiationFailed endpoint e), o.world,
            o.effects ++
              [.logError ("API request initiation error: " ++
                (GoError.initiationFailed endpoint e).message)]⟩
      | .ok rd =>
          if action == "torrent" then
            match rd.Response.Torrent with
            | some t =>
                ⟨.ok rd, o.world, o.effects ++ [.logDebug (releaseLogLine indexer t id)]⟩
            | none => ⟨.ok rd, o.world, o.effects⟩
          else ⟨.ok rd, o.world, o.effects⟩

/-- requests.go lines 95-120: `fetchResponseData` checks the cache first
under key `fmt.Sprintf("%sID %d", action, id)` scoped by
`requestData.Indexer`; on a hit it returns the cached envelope.  On a
miss it resolves the API key (a failure is returned as-is), invokes the
orchestrator (a failure is wrapped with id/action context), and caches a
successful envelope under the computed key. -/
def fetchResponseData (requestData : RequestData) (id : Int) (action apiBase : String)
    (env : Env) (w : World) : Outcome :=
  let cacheKey := action ++ "ID " ++ toString id
  match lookupCache requestData.Indexer cacheKey w.cache with
  | some cachedData => ⟨.ok cachedData, w, []⟩
  | none =>
      match env.getAPIKey requestData with
      | .error msg => ⟨.error (.credentialError msg), w, [.credentialLookup]⟩
      | .ok apiKey =>
          let o := initiateAPIRequest id action apiKey apiBase requestData.Indexer env w
          match o.res with
          | .error e =>
              ⟨.error (.fetchFailed action id e), o.world,
                .credentialLookup :: o.effects ++
                  [.logError ("Data fetching error: " ++
                    (GoError.fetchFailed action id e).message)]⟩
          | .ok rd =>
              ⟨.ok rd, cacheResponseData cacheKey requestData.Indexer rd o.world,
                .credentialLookup :: o.effects⟩

/-- Modelled from the spec: compiled-in base URL constant for the
`redacted` indexer (defined outside `src/`); its value is immaterial to
every claim. -/
def APIEndpointBaseRedacted : String := "https://redacted.sh/ajax.php"

/-- Modelled from the spec: compiled-in base URL constant for the `ops`
indexer (defined outside `src/`); its value is immaterial to every claim. -/
def APIEndpointBaseOrpheus : String := "https://orpheus.network/ajax.php"

/-- requests.go lines 123-132: `determineAPIBase` maps the indexer
identifier to its compiled-in base URL; unknown indexers fail with
`invalid path`.  A pure Lean function: deterministic and side-effect-free
by construction. -/
def determineAPIBase (indexer : String) : Except GoError String :=
  if indexer == "redacted" then .ok APIEndpointBaseRedacted
  else if indexer == "ops" then .ok APIEndpointBaseOrpheus
  else .error .invalidPath


/-
  Concrete fixtures used by the witnesses and counterexamples.
-/

/-- A successful envelope with an HTML-escaped release name. -/
def rdOk : ResponseData := ⟨"success", "", ⟨some ⟨"Foo &amp; Bar", "alice"⟩⟩⟩

/-- A failure envelope as reported by the remote API. -/
def rdFail : ResponseData := ⟨"failure", "bad id parameter", ⟨none⟩⟩

/-- A request context for the `redacted` indexer. -/
def reqRed : RequestData := ⟨"redacted", "cred"⟩

/-- A request context for the `ops` indexer. -/
def reqOps : RequestData := ⟨"ops", "cred"⟩

/-- A stub environment: limiter configured for `redacted`, credentials
available, HTTP 200 responses whose body decodes to `rdOk`. -/
def envOk : Env :=
  ⟨fun ix => if ix == "redacted" then some "limRed" else none,
   fun _ => .ok "key123",
   fun _ => none,
   fun _ _ => .ok ⟨200, .ok "bodyOK"⟩,
   fun b =>
     if b == "bodyOK" then .ok rdOk
     else if b == "bodyBad" then .ok rdFail
     else .error "invalid character"⟩

/-- `envOk` with a credential provider that fails. -/
def envNoKey : Env := { envOk with getAPIKey := fun _ => .error "API key not found" }

/-- `envOk` with a transport whose body decodes to the failure envelope. -/
def envApiErr : Env := { envOk with transport := fun _ _ => .ok ⟨200, .ok "bodyBad"⟩ }

/-- Initial world: empty cache, ten tokens on the `redacted` limiter. -/
def w0 : World := ⟨[], [("limRed", 10)]⟩

/-- A world whose `redacted` limiter has no token available. -/
def wDrained : World := ⟨[], [("limRed", 0)]⟩

/-
  Path equations: one lemma per control-flow path of each source
  function, proved by unfolding the definition under the hypotheses that
  select the path.  The claim theorems below are assembled from these.
-/

/-- Rate-limit denial path of `makeRequest` (requests.go lines 19-22). -/
theorem makeRequest_denied (endpoint apiKey limiter indexer : String) (env : Env) (w : World)
    (hA : (consumeToken limiter w.tokens).1 = false) :
    makeRequest endpoint apiKey limiter indexer env w =
      ⟨.error .tooManyRequests, { w with tokens := (consumeToken limiter w.tokens).2 },
        [.limiterQuery limiter, .logWarn (indexer ++ ": Too many requests")]⟩ := by
  simp [makeRequest, hA]

/-- Transport-failure path of `makeRequest` (requests.go lines 36-40). -/
theorem makeRequest_transport_err (endpoint apiKey limiter indexer : String) (env : Env)
    (w : World) (msg : String)
    (hA : (consumeToken limiter w.tokens).1 = true)
    (hN : env.newRequestErr endpoint = none)
    (hT : env.transport endpoint apiKey = .err msg) :
    makeRequest endpoint apiKey limiter indexer env w =
      ⟨.error (.transportError msg), { w with tokens := (consumeToken limiter w.tokens).2 },
        [.limiterQuery limiter, .httpCall endpoint,
          .logError ("fetchAPI error: " ++ msg)]⟩ := by
  simp [makeRequest, hA, hN, hT]

/-- Decode-failure path of `makeRequest` (requests.go lines 49-52). -/
theorem makeRequest_decode_err (endpoint apiKey limiter indexer : String) (env : Env)
    (w : World) (resp : HttpResp) (body msg : String)
    (hA : (consumeToken limiter w.tokens).1 = true)
    (hN : env.newRequestErr endpoint = none)
    (hT : env.transport endpoint apiKey = .ok resp)
    (hB : resp.bodyRead = .ok body)
    (hU : env.unmarshal body = .error msg) :
    makeRequest endpoint apiKey limiter indexer env w =
      ⟨.error (.decodeError msg), { w with tokens := (consumeToken limiter w.tokens).2 },
        [.limiterQuery limiter, .httpCall endpoint,
          .logError ("fetchAPI error: " ++ msg)]⟩ := by
  simp [makeRequest, hA, hN, hT, hB, hU]

/-- Envelope-status-failure path of `makeRequest` (requests.go lines 60-63). -/
theorem makeRequest_api_err (endpoint apiKey limiter indexer : String) (env : Env)
    (w : World) (resp : HttpResp) (body : String) (rd : ResponseData)
    (hA : (consumeToken limiter w.tokens).1 = true)
    (hN : env.newRequestErr endpoint = none)
    (hT : env.transport endpoint apiKey = .ok resp)
    (hB : resp.bodyRead = .ok body)
    (hU : env.unmarshal body = .ok rd)
    (hS : rd.Status ≠ "success") :
    makeRequest endpoint apiKey limiter indexer env w =
      ⟨.error (.apiError indexer rd.Error),
        { w with tokens := (consumeToken limiter w.tokens).2 },
        [.limiterQuery limiter, .httpCall endpoint,
          .logWarn ("API error from " ++ indexer ++ ": " ++ rd.Error)]⟩ := by
  simp [makeRequest, hA, hN, hT, hB, hU, hS]

/-- Success path of `makeRequest` (requests.go line 65). -/
theorem makeRequest_success (endpoint apiKey limiter indexer : String) (env : Env)
    (w : World) (resp : HttpResp) (body : String) (rd : ResponseData)
    (hA : (consumeToken limiter w.tokens).1 = true)
    (hN : env.newRequestErr endpoint = none)
    (hT : env.transport endpoint apiKey = .ok resp)
    (hB : resp.bodyRead = .ok body)
    (hU : env.unmarshal body = .ok rd)
    (hS : rd.Status = "success") :
    makeRequest endpoint apiKey limiter indexer env w =
      ⟨.ok rd, { w with tokens := (consumeToken limiter w.tokens).2 },
        [.limiterQuery limiter, .httpCall endpoint]⟩ := by
  simp [makeRequest, hA, hN, hT, hB, hU, hS]

/-- `makeRequest` never touches the cache component of the world. -/
theorem makeRequest_cache (endpoint apiKey limiter indexer : String) (env : Env) (w : World) :
    (makeRequest endpoint apiKey limiter indexer env w).world.cache = w.cache := by
  unfold makeRequest
  dsimp only
  repeat' first | rfl | split

/-- A successful `makeRequest` only ever returns an envelope that passed
the status check (requests.go lines 60-65). -/
theorem makeRequest_ok_status (endpoint apiKey limiter indexer : String) (env : Env)
    (w : World) (rd : ResponseData)
    (h : (makeRequest endpoint apiKey limiter indexer env w).res = .ok rd) :
    rd.Status = "success" := by
  unfold makeRequest at h
  dsimp only at h
  repeat' split at h
  all_goals simp_all

/-- Missing-limiter path of `initiateAPIRequest` (requests.go lines 71-74). -/
theorem initiate_no_limiter (id : Int) (action apiKey apiBase indexer : String)
    (env : Env) (w : World)
    (hL : env.getLimiter indexer = none) :
    initiateAPIRequest id action apiKey apiBase indexer env w =
      ⟨.error (.limiterUnavailable indexer), w, []⟩ := by
  simp [initiateAPIRequest, hL]

/-- Executor-failure path of `initiateAPIRequest` (requests.go lines 78-82). -/
theorem initiate_executor_err (id : Int) (action apiKey apiBase indexer limiter : String)
    (env : Env) (w : World) (e : GoError)
    (hL : env.getLimiter indexer = some limiter)
    (hE : (makeRequest (queryEndpoint apiBase action id)
            apiKey limiter indexer env w).res = .error e) :
    initiateAPIRequest id action apiKey apiBase indexer env w =
      ⟨.error (.initiationFailed (queryEndpoint apiBase action id) e),
        (makeRequest (queryEndpoint apiBase action id) apiKey limiter indexer env w).world,
        (makeRequest (queryEndpoint apiBase action id) apiKey limiter indexer env w).effects ++
          [.logError ("API request initiation error: " ++
            (GoError.initiationFailed (queryEndpoint apiBase action id) e).message)]⟩ := by
  simp [initiateAPIRequest, hL, hE]

/-- Success path of `initiateAPIRequest` for the torrent action with a
torrent payload (requests.go lines 84-91). -/
theorem initiate_ok_torrent (id : Int) (apiKey apiBase indexer limiter : String)
    (env : Env) (w : World) (rd : ResponseData) (t : Torrent)
    (hL : env.getLimiter indexer = some limiter)
    (hE : (makeRequest (queryEndpoint apiBase "torrent" id)
            apiKey limiter indexer env w).res = .ok rd)
    (ht : rd.Response.Torrent = some t) :
    initiateAPIRequest id "torrent" apiKey apiBase indexer env w =
      ⟨.ok rd,
        (makeRequest (queryEndpoint apiBase "torrent" id) apiKey limiter indexer env w).world,
        (makeRequest (queryEndpoint apiBase "torrent" id)
            apiKey limiter indexer env w).effects ++
          [.logDebug (releaseLogLine indexer t id)]⟩ := by
  simp [initiateAPIRequest, hL, hE, ht]

/-- Success path of `initiateAPIRequest` when no release is logged
(action other than torrent, or no torrent payload). -/
theorem initiate_ok_plain (id : Int) (action apiKey apiBase indexer limiter : String)
    (env : Env) (w : World) (rd : ResponseData)
    (hL : env.getLimiter indexer = some limiter)
    (hE : (makeRequest (queryEndpoint apiBase action id)
            apiKey limiter indexer env w).res = .ok rd)
    (hnolog : action ≠ "torrent" ∨ rd.Response.Torrent = none) :
    initiateAPIRequest id action apiKey apiBase indexer env w =
      ⟨.ok rd,
        (makeRequest (queryEndpoint apiBase action id) apiKey limiter indexer env w).world,
        (makeRequest (queryEndpoint apiBase action id) apiKey limiter indexer env w).effects⟩ := by
  rcases hnolog with hna | hnt
  · simp [initiateAPIRequest, hL, hE, hna]
  · simp [initiateAPIRequest, hL, hE, hnt]

/-- `initiateAPIRequest` never touches the cache component of the world. -/
theorem initiateAPIRequest_cache (id : Int) (action apiKey apiBase indexer : String)
    (env : Env) (w : World) :
    (initiateAPIRequest id action apiKey apiBase indexer env w).world.cache = w.cache := by
  unfold initiateAPIRequest
  dsimp only
  repeat' first
    | rfl
    | exact makeRequest_cache (queryEndpoint apiBase action id) apiKey _ indexer env w
    | split

/-- A successful `initiateAPIRequest` returns exactly the envelope the
executor decoded, whose status passed validation. -/
theorem initiate_ok_shape (id : Int) (action apiKey apiBase indexer : String)
    (env : Env) (w : World) (rd : ResponseData)
    (h : (initiateAPIRequest id action apiKey apiBase indexer env w).res = .ok rd) :
    ∃ limiter, env.getLimiter indexer = some limiter ∧
      (makeRequest (queryEndpoint apiBase action id)
        apiKey limiter indexer env w).res = .ok rd := by
  unfold initiateAPIRequest at h
  dsimp only at h
  cases hL : env.getLimiter indexer with
  | none => rw [hL] at h; exact absurd h (by simp)
  | some limiter =>
      rw [hL] at h
      dsimp only at h
      refine ⟨limiter, rfl, ?_⟩
      repeat' split at h
      all_goals simp_all

/-- A failing `initiateAPIRequest` fails either because the limiter
registry has no limiter for the indexer, or with endpoint context
wrapped around the executor error. -/
theorem initiate_err_shape (id : Int) (action apiKey apiBase indexer : String)
    (env : Env) (w : World) (e : GoError)
    (h : (initiateAPIRequest id action apiKey apiBase indexer env w).res = .error e) :
    e = .limiterUnavailable indexer ∨
      ∃ e₂, e = .initiationFailed (queryEndpoint apiBase action id) e₂ := by
  unfold initiateAPIRequest at h
  dsimp only at h
  cases hL : env.getLimiter indexer with
  | none => rw [hL] at h; simp at h; left; exact h.symm
  | some limiter =>
      rw [hL] at h
      dsimp only at h
      right
      repeat' split at h
      all_goals simp_all
      all_goals exact ⟨_, h.symm⟩

/-- Looking up the entry just populated under the same scope and key hits
it (the cache store returns the most recent entry first). -/
theorem lookupCache_head (ix k : String) (rd : ResponseData)
    (rest : List ((String × String) × ResponseData)) :
    lookupCache ix k (((ix, k), rd) :: rest) = some rd := by
  simp [lookupCache]

/-- An entry populated under a different indexer scope is invisible:
lookups under `ix` skip it. -/
theorem lookupCache_cons_ne (ix k ix₂ k₂ : String) (rd : ResponseData)
    (rest : List ((String × String) × ResponseData)) (h : ix ≠ ix₂) :
    lookupCache ix k (((ix₂, k₂), rd) :: rest) = lookupCache ix k rest := by
  have hb : (ix₂ == ix) = false := beq_eq_false_iff_ne.mpr (Ne.symm h)
  simp [lookupCache, hb]

/-- A hit on a cache with one more entry in front is the front entry or a
hit on the rest. -/
theorem lookupCache_cons_cases (ix k : String) (p : String × String) (rd rd₂ : ResponseData)
    (rest : List ((String × String) × ResponseData))
    (h : lookupCache ix k ((p, rd) :: rest) = some rd₂) :
    rd₂ = rd ∨ lookupCache ix k rest = some rd₂ := by
  simp only [lookupCache] at h
  split at h
  · left; exact (Option.some.inj h).symm
  · right; exact h

/-- Cache-hit path of `fetchResponseData` (requests.go lines 98-102). -/
theorem fetch_hit (requestData : RequestData) (id : Int) (action apiBase : String)
    (env : Env) (w : World) (cached : ResponseData)
    (hc : lookupCache requestData.Indexer (action ++ "ID " ++ toString id) w.cache =
      some cached) :
    fetchResponseData requestData id action apiBase env w = ⟨.ok cached, w, []⟩ := by
  simp [fetchResponseData, hc]

/-- Credential-failure path of `fetchResponseData` (requests.go lines
104-107): the provider error is returned as-is. -/
theorem fetch_key_err (requestData : RequestData) (id : Int) (action apiBase : String)
    (env : Env) (w : World) (msg : String)
    (hc : lookupCache requestData.Indexer (action ++ "ID " ++ toString id) w.cache = none)
    (hk : env.getAPIKey requestData = .error msg) :
    fetchResponseData requestData id action apiBase env w =
      ⟨.error (.credentialError msg), w, [.credentialLookup]⟩ := by
  simp [fetchResponseData, hc, hk]

/-- Orchestrator-failure path of `fetchResponseData` (requests.go lines
109-114): wrapped with id/action context, nothing cached. -/
theorem fetch_init_err (requestData : RequestData) (id : Int)
    (action apiBase apiKey : String) (env : Env) (w : World) (e : GoError)
    (hc : lookupCache requestData.Indexer (action ++ "ID " ++ toString id) w.cache = none)
    (hk : env.getAPIKey requestData = .ok apiKey)
    (he : (initiateAPIRequest id action apiKey apiBase requestData.Indexer env w).res =
      .error e) :
    fetchResponseData requestData id action apiBase env w =
      ⟨.error (.fetchFailed action id e),
        (initiateAPIRequest id action apiKey apiBase requestData.Indexer env w).world,
        .credentialLookup ::
          (initiateAPIRequest id action apiKey apiBase requestData.Indexer env w).effects ++
          [.logError ("Data fetching error: " ++
            (GoError.fetchFailed action id e).message)]⟩ := by
  simp [fetchResponseData, hc, hk, he]

/-- Live-success path of `fetchResponseData` (requests.go lines 116-119):
the envelope is cached under the computed key in the request's scope. -/
theorem fetch_live_ok (requestData : RequestData) (id : Int)
    (action apiBase apiKey : String) (env : Env) (w : World) (rd : ResponseData)
    (hc : lookupCache requestData.Indexer (action ++ "ID " ++ toString id) w.cache = none)
    (hk : env.getAPIKey requestData = .ok apiKey)
    (ho : (initiateAPIRequest id action apiKey apiBase requestData.Indexer env w).res =
      .ok rd) :
    fetchResponseData requestData id action apiBase env w =
      ⟨.ok rd,
        cacheResponseData (action ++ "ID " ++ toString id) requestData.Indexer rd
          (initiateAPIRequest id action apiKey apiBase requestData.Indexer env w).world,
        .credentialLookup ::
          (initiateAPIRequest id action apiKey apiBase requestData.Indexer env w).effects⟩ := by
  simp [fetchResponseData, hc, hk, ho]


/-- C1: Idempotence of fetch: whenever a `fetchResponseData` call for
(indexer, action, id) succeeds with envelope `rd`, a second call with
the identical arguments from the resulting world returns `rd` (the
cached envelope) immediately, leaves the world unchanged, and has an
empty effect trace — no second live API call, no credential lookup and
no rate-limiter query. -/
theorem fetchResponseData_idempotent (requestData : RequestData) (id : Int)
    (action apiBase : String) (env : Env) (w : World) (rd : ResponseData)
    (h : (fetchResponseData requestData id action apiBase env w).res = .ok rd) :
    fetchResponseData requestData id action apiBase env
        (fetchResponseData requestData id action apiBase env w).world =
      ⟨.ok rd, (fetchResponseData requestData id action apiBase env w).world, []⟩ := by
  cases hc : lookupCache requestData.Indexer (action ++ "ID " ++ toString id) w.cache with
  | some cached =>
      have h1 := fetch_hit requestData id action apiBase env w cached hc
      have hv : cached = rd := by rw [h1] at h; exact Except.ok.inj h
      subst hv
      rw [h1]
      exact h1
  | none =>
      cases hk : env.getAPIKey requestData with
      | error msg =>
          rw [fetch_key_err requestData id action apiBase env w msg hc hk] at h
          exact absurd h (by simp)
      | ok apiKey =>
          cases ho : (initiateAPIRequest id action apiKey apiBase
              requestData.Indexer env w).res with
          | error e =>
              rw [fetch_init_err requestData id action apiBase apiKey env w e hc hk ho] at h
              exact absurd h (by simp)
          | ok rd₂ =>
              have h1 := fetch_live_ok requestData id action apiBase apiKey env w rd₂ hc hk ho
              have hv : rd₂ = rd := by rw [h1] at h; exact Except.ok.inj h
              subst hv
              rw [h1]
              apply fetch_hit
              simp [cacheResponseData, lookupCache_head]

/-- Witness for C1: against the stub environment the first fetch
succeeds live and the second identical fetch is served from the cache
with an empty effect trace. -/
theorem fetchResponseData_idempotent_witness :
    (fetchResponseData reqRed 42 "torrent" "https://api" envOk w0).res = .ok rdOk ∧
    fetchResponseData reqRed 42 "torrent" "https://api" envOk
        (fetchResponseData reqRed 42 "torrent" "https://api" envOk w0).world =
      ⟨.ok rdOk, (fetchResponseData reqRed 42 "torrent" "https://api" envOk w0).world, []⟩ :=
  ⟨by decide,
   fetchResponseData_idempotent reqRed 42 "torrent" "https://api" envOk w0 rdOk (by decide)⟩

/-- C2: Non-caching of failures: every erroring `fetchResponseData` call
— whether the error came from credential resolution, rate limiting,
transport, decoding or a remote-reported API failure — leaves the cache
component of the world exactly as it was, so the lookup for the computed
key is unchanged as well and a subsequent identical fetch misses the
cache again; only a successful fetch populates it. -/
theorem fetchResponseData_error_no_cache (requestData : RequestData) (id : Int)
    (action apiBase : String) (env : Env) (w : World) (e : GoError)
    (h : (fetchResponseData requestData id action apiBase env w).res = .error e) :
    (fetchResponseData requestData id action apiBase env w).world.cache = w.cache ∧
    lookupCache requestData.Indexer (action ++ "ID " ++ toString id)
        (fetchResponseData requestData id action apiBase env w).world.cache =
      lookupCache requestData.Indexer (action ++ "ID " ++ toString id) w.cache := by
  have hcache :
      (fetchResponseData requestData id action apiBase env w).world.cache = w.cache := by
    cases hc : lookupCache requestData.Indexer (action ++ "ID " ++ toString id) w.cache with
    | some cached =>
        rw [fetch_hit requestData id action apiBase env w cached hc] at h
        exact absurd h (by simp)
    | none =>
        cases hk : env.getAPIKey requestData with
        | error msg =>
            rw [fetch_key_err requestData id action apiBase env w msg hc hk]
        | ok apiKey =>
            cases ho : (initiateAPIRequest id action apiKey apiBase
                requestData.Indexer env w).res with
            | error e₂ =>
                rw [fetch_init_err requestData id action apiBase apiKey env w e₂ hc hk ho]
                exact initiateAPIRequest_cache id action apiKey apiBase
                  requestData.Indexer env w
            | ok rd =>
                rw [fetch_live_ok requestData id action apiBase apiKey env w rd hc hk ho] at h
                exact absurd h (by simp)
  exact ⟨hcache, by rw [hcache]⟩

/-- Witness for C2: a fetch that fails with a remote-reported API error
leaves the cache untouched. -/
theorem fetchResponseData_error_no_cache_witness :
    (fetchResponseData reqRed 42 "torrent" "https://api" envApiErr w0).world.cache =
      w0.cache ∧
    lookupCache reqRed.Indexer ("torrent" ++ "ID " ++ toString (42 : Int))
        (fetchResponseData reqRed 42 "torrent" "https://api" envApiErr w0).world.cache =
      lookupCache reqRed.Indexer ("torrent" ++ "ID " ++ toString (42 : Int)) w0.cache :=
  fetchResponseData_error_no_cache reqRed 42 "torrent" "https://api" envApiErr w0
    (.fetchFailed "torrent" 42 (.initiationFailed "https://api?action=torrent&id=42"
      (.apiError "redacted" "bad id parameter"))) (by decide)

/-- C3: Rate-limit admission: when the non-blocking allow check denies a
token, `makeRequest` fails immediately with the rate-limited error
(`too many requests`) and its effect trace contains no HTTP call — zero
network requests are issued.  The admission check is `limiter.Allow()`,
which never blocks waiting for a token. -/
theorem makeRequest_rate_limited (endpoint apiKey limiter indexer : String)
    (env : Env) (w : World)
    (hA : (consumeToken limiter w.tokens).1 = false) :
    makeRequest endpoint apiKey limiter indexer env w =
      ⟨.error .tooManyRequests, { w with tokens := (consumeToken limiter w.tokens).2 },
        [.limiterQuery limiter, .logWarn (indexer ++ ": Too many requests")]⟩ ∧
    ∀ ep, Effect.httpCall ep ∉ (makeRequest endpoint apiKey limiter indexer env w).effects := by
  refine ⟨makeRequest_denied endpoint apiKey limiter indexer env w hA, ?_⟩
  intro ep
  rw [makeRequest_denied endpoint apiKey limiter indexer env w hA]
  simp


/-- Witness for C3: with a drained token bucket the executor is
rate-limited and issues no HTTP call. -/
theorem makeRequest_rate_limited_witness :
    makeRequest "https://api?action=torrent&id=42" "key123" "limRed" "redacted" envOk
        wDrained =
      ⟨.error .tooManyRequests,
        { wDrained with tokens := (consumeToken "limRed" wDrained.tokens).2 },
        [.limiterQuery "limRed", .logWarn ("redacted" ++ ": Too many requests")]⟩ ∧
    Effect.httpCall "https://api?action=torrent&id=42" ∉
      (makeRequest "https://api?action=torrent&id=42" "key123" "limRed" "redacted" envOk
        wDrained).effects :=
  ⟨(makeRequest_rate_limited "https://api?action=torrent&id=42" "key123" "limRed"
      "redacted" envOk wDrained (by decide)).1,
   (makeRequest_rate_limited "https://api?action=torrent&id=42" "key123" "limRed"
      "redacted" envOk wDrained (by decide)).2 "https://api?action=torrent&id=42"⟩

/-- C4: Envelope status validation: once the body decodes into envelope
`rd`, `makeRequest` fails with the API error carrying the indexer label
and the envelope's `Error` string verbatim whenever `rd.Status` is not
the success sentinel `"success"`, and returns `rd` with no further
interpretation when it is. -/
theorem makeRequest_status_validation (endpoint apiKey limiter indexer : String)
    (env : Env) (w : World) (resp : HttpResp) (body : String) (rd : ResponseData)
    (hA : (consumeToken limiter w.tokens).1 = true)
    (hN : env.newRequestErr endpoint = none)
    (hT : env.transport endpoint apiKey = .ok resp)
    (hB : resp.bodyRead = .ok body)
    (hU : env.unmarshal body = .ok rd) :
    (rd.Status ≠ "success" →
      (makeRequest endpoint apiKey limiter indexer env w).res =
        .error (.apiError indexer rd.Error) ∧
      (GoError.apiError indexer rd.Error).message =
        "API error from " ++ indexer ++ ": " ++ rd.Error) ∧
    (rd.Status = "success" →
      (makeRequest endpoint apiKey limiter indexer env w).res = .ok rd) := by
  constructor
  · intro hS
    rw [makeRequest_api_err endpoint apiKey limiter indexer env w resp body rd
      hA hN hT hB hU hS]
    exact ⟨rfl, rfl⟩
  · intro hS
    rw [makeRequest_success endpoint apiKey limiter indexer env w resp body rd
      hA hN hT hB hU hS]

/-- Witness for C4: the failure envelope `rdFail` yields the verbatim
API error; the success envelope `rdOk` is returned unchanged. -/
theorem makeRequest_status_validation_witness :
    ((makeRequest "ep" "key123" "limRed" "redacted" envApiErr w0).res =
        .error (.apiError "redacted" rdFail.Error) ∧
      (GoError.apiError "redacted" rdFail.Error).message =
        "API error from " ++ "redacted" ++ ": " ++ rdFail.Error) ∧
    (makeRequest "ep" "key123" "limRed" "redacted" envOk w0).res = .ok rdOk :=
  ⟨(makeRequest_status_validation "ep" "key123" "limRed" "redacted" envApiErr w0
      ⟨200, .ok "bodyBad"⟩ "bodyBad" rdFail (by decide) (by decide) (by decide)
      (by decide) (by decide)).1 (by decide),
   (makeRequest_status_validation "ep" "key123" "limRed" "redacted" envOk w0
      ⟨200, .ok "bodyOK"⟩ "bodyOK" rdOk (by decide) (by decide) (by decide)
      (by decide) (by decide)).2 (by decide)⟩

/-- A successful `initiateAPIRequest` only returns envelopes whose
status passed the executor's validation. -/
theorem initiate_ok_success (id : Int) (action apiKey apiBase indexer : String)
    (env : Env) (w : World) (rd : ResponseData)
    (h : (initiateAPIRequest id action apiKey apiBase indexer env w).res = .ok rd) :
    rd.Status = "success" := by
  obtain ⟨limiter, _, hmk⟩ := initiate_ok_shape id action apiKey apiBase indexer env w rd h
  exact makeRequest_ok_status (queryEndpoint apiBase action id)
    apiKey limiter indexer env w rd hmk

/-- The cache after a `fetchResponseData` call is either untouched or
extended by exactly one entry, under the request's indexer scope and the
computed key, containing an envelope the orchestrator returned
successfully. -/
theorem fetch_cache_shape (requestData : RequestData) (id : Int)
    (action apiBase : String) (env : Env) (w : World) :
    (fetchResponseData requestData id action apiBase env w).world.cache = w.cache ∨
    ∃ rd, rd.Status = "success" ∧
      (fetchResponseData requestData id action apiBase env w).world.cache =
        ((requestData.Indexer, action ++ "ID " ++ toString id), rd) :: w.cache := by
  cases hc : lookupCache requestData.Indexer (action ++ "ID " ++ toString id) w.cache with
  | some cached =>
      left
      rw [fetch_hit requestData id action apiBase env w cached hc]
  | none =>
      cases hk : env.getAPIKey requestData with
      | error msg =>
          left
          rw [fetch_key_err requestData id action apiBase env w msg hc hk]
      | ok apiKey =>
          cases ho : (initiateAPIRequest id action apiKey apiBase
              requestData.Indexer env w).res with
          | error e =>
              left
              rw [fetch_init_err requestData id action apiBase apiKey env w e hc hk ho]
              exact initiateAPIRequest_cache id action apiKey apiBase
                requestData.Indexer env w
          | ok rd =>
              right
              refine ⟨rd, initiate_ok_success id action apiKey apiBase
                requestData.Indexer env w rd ho, ?_⟩
              rw [fetch_live_ok requestData id action apiBase apiKey env w rd hc hk ho]
              simp only [cacheResponseData]
              rw [initiateAPIRequest_cache id action apiKey apiBase
                requestData.Indexer env w]

/-- Counterexample to C5 as stated: a credential-resolution failure is
returned by `fetchResponseData` as-is — requests.go line 106 passes the
provider's error through with no id/action (`FetchFailed`) wrapping. -/
theorem fetch_credential_error_unwrapped_cex :
    fetchResponseData reqRed 42 "torrent" "https://api" envNoKey w0 =
      ⟨.error (.credentialError "API key not found"), w0, [.credentialLookup]⟩ ∧
    GoError.hasFetchContext (.credentialError "API key not found") = false := by
  decide

/-- C5 (amended): error-context wrapping in `fetchResponseData`: an
error returned by the cached fetch is either the credential provider's
error returned as-is (with no id/action context), or the orchestrator's
failure wrapped with id/action context (`FetchFailed`) — the
orchestrator failure itself being either the bare missing-limiter
configuration error or the executor's error wrapped with endpoint
context (`InitiationFailed`).  No error is swallowed and nothing is
retried. -/
theorem fetchResponseData_error_wrapping (requestData : RequestData) (id : Int)
    (action apiBase : String) (env : Env) (w : World) (e : GoError)
    (h : (fetchResponseData requestData id action apiBase env w).res = .error e) :
    (∃ msg, env.getAPIKey requestData = .error msg ∧ e = .credentialError msg) ∨
    e = .fetchFailed action id (.limiterUnavailable requestData.Indexer) ∨
    ∃ e₂, e = .fetchFailed action id
      (.initiationFailed (queryEndpoint apiBase action id) e₂) := by
  cases hc : lookupCache requestData.Indexer (action ++ "ID " ++ toString id) w.cache with
  | some cached =>
      rw [fetch_hit requestData id action apiBase env w cached hc] at h
      exact absurd h (by simp)
  | none =>
      cases hk : env.getAPIKey requestData with
      | error msg =>
          rw [fetch_key_err requestData id action apiBase env w msg hc hk] at h
          exact Or.inl ⟨msg, rfl, (Except.error.inj h).symm⟩
      | ok apiKey =>
          cases ho : (initiateAPIRequest id action apiKey apiBase
              requestData.Indexer env w).res with
          | error e₂ =>
              rw [fetch_init_err requestData id action apiBase apiKey env w e₂ hc hk ho] at h
              have he : e = .fetchFailed action id e₂ := (Except.error.inj h).symm
              rcases initiate_err_shape id action apiKey apiBase
                  requestData.Indexer env w e₂ ho with h2 | ⟨e₃, h3⟩
              · exact Or.inr (Or.inl (by rw [he, h2]))
              · exact Or.inr (Or.inr ⟨e₃, by rw [he, h3]⟩)
          | ok rd =>
              rw [fetch_live_ok requestData id action apiBase apiKey env w rd hc hk ho] at h
              exact absurd h (by simp)

/-- Witness for the amended C5: a remote API failure surfaces as
`FetchFailed` wrapping `InitiationFailed` wrapping the API error, in
line with the third disjunct. -/
theorem fetchResponseData_error_wrapping_witness :
    (∃ msg, envApiErr.getAPIKey reqRed = .error msg ∧
        GoError.fetchFailed "torrent" 42 (.initiationFailed
          (queryEndpoint "https://api" "torrent" 42)
          (.apiError "redacted" "bad id parameter")) = .credentialError msg) ∨
    GoError.fetchFailed "torrent" 42 (.initiationFailed
        (queryEndpoint "https://api" "torrent" 42)
        (.apiError "redacted" "bad id parameter")) =
      .fetchFailed "torrent" 42 (.limiterUnavailable reqRed.Indexer) ∨
    ∃ e₂, GoError.fetchFailed "torrent" 42 (.initiationFailed
        (queryEndpoint "https://api" "torrent" 42)
        (.apiError "redacted" "bad id parameter")) =
      .fetchFailed "torrent" 42
        (.initiationFailed (queryEndpoint "https://api" "torrent" 42) e₂) :=
  fetchResponseData_error_wrapping reqRed 42 "torrent" "https://api" envApiErr w0
    (.fetchFailed "torrent" 42 (.initiationFailed (queryEndpoint "https://api" "torrent" 42)
      (.apiError "redacted" "bad id parameter"))) (by decide)


/-- C6: HTML-unescape is display-only: on the success path of a torrent
request whose payload contains a torrent record, `initiateAPIRequest`
returns exactly the envelope the executor decoded — the raw,
HTML-escaped `ReleaseName` field untouched, so the envelope later cached
by `fetchResponseData` is the raw one — and the unescaped release name
appears only in the appended debug-log effect, a derived, ephemeral view
for observability. -/
theorem initiateAPIRequest_unescape_display_only (id : Int)
    (apiKey apiBase indexer limiter : String) (env : Env) (w : World)
    (rd : ResponseData) (t : Torrent)
    (hL : env.getLimiter indexer = some limiter)
    (hE : (makeRequest (queryEndpoint apiBase "torrent" id)
      apiKey limiter indexer env w).res = .ok rd)
    (ht : rd.Response.Torrent = some t) :
    (initiateAPIRequest id "torrent" apiKey apiBase indexer env w).res = .ok rd ∧
    (initiateAPIRequest id "torrent" apiKey apiBase indexer env w).effects =
      (makeRequest (queryEndpoint apiBase "torrent" id)
          apiKey limiter indexer env w).effects ++
        [.logDebug ("[" ++ indexer ++ "] Checking release: " ++
          htmlUnescape t.ReleaseName ++ " - (Uploader: " ++ t.Username ++
          ") (TorrentID: " ++ toString id ++ ")")] := by
  rw [initiate_ok_torrent id apiKey apiBase indexer limiter env w rd t hL hE ht]
  exact ⟨rfl, rfl⟩

/-- Witness for C6: the returned envelope keeps the escaped release name
`"Foo &amp; Bar"` while the log line carries the unescaped `"Foo & Bar"`. -/
theorem initiateAPIRequest_unescape_display_only_witness :
    ((initiateAPIRequest 42 "torrent" "key123" "https://api" "redacted" envOk w0).res =
        .ok rdOk ∧
      (initiateAPIRequest 42 "torrent" "key123" "https://api" "redacted" envOk w0).effects =
        (makeRequest (queryEndpoint "https://api" "torrent" 42) "key123" "limRed"
            "redacted" envOk w0).effects ++
          [.logDebug ("[" ++ "redacted" ++ "] Checking release: " ++
            htmlUnescape (Torrent.mk "Foo &amp; Bar" "alice").ReleaseName ++
            " - (Uploader: " ++ (Torrent.mk "Foo &amp; Bar" "alice").Username ++
            ") (TorrentID: " ++ toString (42 : Int) ++ ")")]) ∧
    rdOk.Response.Torrent = some ⟨"Foo &amp; Bar", "alice"⟩ ∧
    htmlUnescape "Foo &amp; Bar" = "Foo & Bar" :=
  ⟨initiateAPIRequest_unescape_display_only 42 "key123" "https://api" "redacted" "limRed"
      envOk w0 rdOk ⟨"Foo &amp; Bar", "alice"⟩ (by decide) (by decide) (by decide),
   by decide, by decide⟩

/-- C7: Cache key construction and scoping: the key `fetchResponseData`
consults and populates is the action string, the separator `"ID "` and
the decimal id, scoped by the request's indexer: a cached envelope under
exactly that key string in the request's scope is returned as a hit;
entries under every other indexer scope are unaffected by the call, so
identical (action, id) under two different indexers never collide; and
when the key is absent under the request's scope the call takes the live
path (it consults the credential provider instead of the cache). -/
theorem fetchResponseData_cache_key_scoping (requestData : RequestData) (id : Int)
    (action apiBase : String) (env : Env) (w : World) :
    (∀ rd, lookupCache requestData.Indexer (action ++ "ID " ++ toString id) w.cache =
        some rd →
      fetchResponseData requestData id action apiBase env w = ⟨.ok rd, w, []⟩) ∧
    (∀ ix k, ix ≠ requestData.Indexer →
      lookupCache ix k (fetchResponseData requestData id action apiBase env w).world.cache =
        lookupCache ix k w.cache) ∧
    (lookupCache requestData.Indexer (action ++ "ID " ++ toString id) w.cache = none →
      Effect.credentialLookup ∈
        (fetchResponseData requestData id action apiBase env w).effects) := by
  refine ⟨fun rd hrd => fetch_hit requestData id action apiBase env w rd hrd, ?_, ?_⟩
  · intro ix k hix
    rcases fetch_cache_shape requestData id action apiBase env w with hsh | ⟨rd, _, hsh⟩
    · rw [hsh]
    · rw [hsh]
      exact lookupCache_cons_ne ix k requestData.Indexer
        (action ++ "ID " ++ toString id) rd w.cache hix
  · intro hc
    cases hk : env.getAPIKey requestData with
    | error msg =>
        rw [fetch_key_err requestData id action apiBase env w msg hc hk]
        simp
    | ok apiKey =>
        cases ho : (initiateAPIRequest id action apiKey apiBase
            requestData.Indexer env w).res with
        | error e =>
            rw [fetch_init_err requestData id action apiBase apiKey env w e hc hk ho]
            simp
        | ok rd =>
            rw [fetch_live_ok requestData id action apiBase apiKey env w rd hc hk ho]
            simp

/-- A world holding a cached envelope for (torrent, 42) under the `ops`
indexer scope. -/
def wOps : World := ⟨[(("ops", "torrentID 42"), rdOk)], [("limRed", 10)]⟩

/-- Witness for C7: a fetch under `ops` hits the entry cached under the
`ops` scope, while a fetch under `redacted` for the same (action, id)
leaves the `ops` entry alone and goes live (consults the credential
provider). -/
theorem fetchResponseData_cache_key_scoping_witness :
    fetchResponseData reqOps 42 "torrent" "https://api" envOk wOps =
      ⟨.ok rdOk, wOps, []⟩ ∧
    lookupCache "ops" "torrentID 42"
        (fetchResponseData reqRed 42 "torrent" "https://api" envOk wOps).world.cache =
      lookupCache "ops" "torrentID 42" wOps.cache ∧
    Effect.credentialLookup ∈
      (fetchResponseData reqRed 42 "torrent" "https://api" envOk wOps).effects :=
  ⟨(fetchResponseData_cache_key_scoping reqOps 42 "torrent" "https://api" envOk wOps).1
      rdOk (by decide),
   (fetchResponseData_cache_key_scoping reqRed 42 "torrent" "https://api" envOk wOps).2.1
      "ops" "torrentID 42" (by decide),
   (fetchResponseData_cache_key_scoping reqRed 42 "torrent" "https://api" envOk wOps).2.2
      (by decide)⟩

/-- C8: Endpoint resolution: `determineAPIBase` maps each identifier of
the known compiled-in set — `redacted` and `ops` — to its fixed base
URL and fails with the invalid-path error on every other identifier; as
a plain total function of its argument it is deterministic and performs
no network or state access. -/
theorem determineAPIBase_resolution :
    determineAPIBase "redacted" = .ok APIEndpointBaseRedacted ∧
    determineAPIBase "ops" = .ok APIEndpointBaseOrpheus ∧
    ∀ indexer, indexer ≠ "redacted" → indexer ≠ "ops" →
      determineAPIBase indexer = .error .invalidPath := by
  refine ⟨rfl, rfl, fun indexer h1 h2 => ?_⟩
  have b1 : (indexer == "redacted") = false := beq_eq_false_iff_ne.mpr h1
  have b2 : (indexer == "ops") = false := beq_eq_false_iff_ne.mpr h2
  simp [determineAPIBase, b1, b2]

/-- Witness for C8: an unknown indexer resolves to the invalid-path
error. -/
theorem determineAPIBase_resolution_witness :
    determineAPIBase "gazelle" = .error .invalidPath :=
  determineAPIBase_resolution.2.2 "gazelle" (by decide) (by decide)


/-- C9: Success invariant: a no-error return of `initiateAPIRequest`
carries an envelope — the non-nil pointer of the Go code is the payload
of the `.ok` constructor in the embedding — whose `Status` equals
`"success"`; consequently `fetchResponseData` only ever stores
success-status envelopes: any cache entry found after a call was either
already present before it or satisfies `Status = "success"`. -/
theorem pipeline_success_invariant (requestData : RequestData) (id : Int)
    (action apiKey apiBase indexer : String) (env : Env) (w : World) :
    (∀ rd, (initiateAPIRequest id action apiKey apiBase indexer env w).res = .ok rd →
      rd.Status = "success") ∧
    (∀ ix k rd,
      lookupCache ix k (fetchResponseData requestData id action apiBase env w).world.cache =
        some rd →
      lookupCache ix k w.cache = some rd ∨ rd.Status = "success") := by
  refine ⟨fun rd h => initiate_ok_success id action apiKey apiBase indexer env w rd h, ?_⟩
  intro ix k rd hlk
  rcases fetch_cache_shape requestData id action apiBase env w with hsh | ⟨rd₂, hst, hsh⟩
  · rw [hsh] at hlk
    exact Or.inl hlk
  · rw [hsh] at hlk
    rcases lookupCache_cons_cases ix k
        (requestData.Indexer, action ++ "ID " ++ toString id) rd₂ rd w.cache hlk with
      hv | hrest
    · exact Or.inr (hv ▸ hst)
    · exact Or.inl hrest

/-- Witness for C9: against the stub environment the orchestrator's
envelope has success status, and the entry the fetch cached satisfies
the invariant. -/
theorem pipeline_success_invariant_witness :
    rdOk.Status = "success" ∧
    (lookupCache "redacted" "torrentID 42" w0.cache = some rdOk ∨
      rdOk.Status = "success") :=
  ⟨(pipeline_success_invariant reqRed 42 "torrent" "key123" "https://api" "redacted"
      envOk w0).1 rdOk (by decide),
   (pipeline_success_invariant reqRed 42 "torrent" "key123" "https://api" "redacted"
      envOk w0).2 "redacted" "torrentID 42" rdOk (by decide)⟩

/-- C10: The executor never inspects the HTTP status code: two stub
transports answering the same body read under different status codes
make `makeRequest` produce identical outcomes; in particular a 500
response whose body decodes into a success-status envelope succeeds, and
a 404 response with a malformed body fails as a decode error rather
than as an HTTP-status error. -/
theorem makeRequest_ignores_http_status (endpoint apiKey limiter indexer : String)
    (env : Env) (w : World) (sc₁ sc₂ : Nat) (br : BodyRead) :
    (makeRequest endpoint apiKey limiter indexer
        { env with transport := fun _ _ => .ok ⟨sc₁, br⟩ } w =
      makeRequest endpoint apiKey limiter indexer
        { env with transport := fun _ _ => .ok ⟨sc₂, br⟩ } w) ∧
    (∀ body rd, (consumeToken limiter w.tokens).1 = true →
      env.newRequestErr endpoint = none → br = .ok body →
      env.unmarshal body = .ok rd → rd.Status = "success" →
      (makeRequest endpoint apiKey limiter indexer
          { env with transport := fun _ _ => .ok ⟨500, br⟩ } w).res = .ok rd) ∧
    (∀ body msg, (consumeToken limiter w.tokens).1 = true →
      env.newRequestErr endpoint = none → br = .ok body →
      env.unmarshal body = .error msg →
      (makeRequest endpoint apiKey limiter indexer
          { env with transport := fun _ _ => .ok ⟨404, br⟩ } w).res =
        .error (.decodeError msg)) := by
  refine ⟨rfl, ?_, ?_⟩
  · intro body rd hA hN hbr hU hS
    subst hbr
    rw [makeRequest_success endpoint apiKey limiter indexer
      { env with transport := fun _ _ => .ok ⟨500, .ok body⟩ } w
      ⟨500, .ok body⟩ body rd hA hN rfl rfl hU hS]
  · intro body msg hA hN hbr hU
    subst hbr
    rw [makeRequest_decode_err endpoint apiKey limiter indexer
      { env with transport := fun _ _ => .ok ⟨404, .ok body⟩ } w
      ⟨404, .ok body⟩ body msg hA hN rfl rfl hU]

/-- Witness for C10: a 500 response with a success-shaped body succeeds
exactly as a 200 does, and a 404 with a malformed body is a decode
error. -/
theorem makeRequest_ignores_http_status_witness :
    (makeRequest "ep" "key123" "limRed" "redacted"
        { envOk with transport := fun _ _ => .ok ⟨500, .ok "bodyOK"⟩ } w0 =
      makeRequest "ep" "key123" "limRed" "redacted"
        { envOk with transport := fun _ _ => .ok ⟨200, .ok "bodyOK"⟩ } w0) ∧
    (makeRequest "ep" "key123" "limRed" "redacted"
        { envOk with transport := fun _ _ => .ok ⟨500, .ok "bodyOK"⟩ } w0).res =
      .ok rdOk ∧
    (makeRequest "ep" "key123" "limRed" "redacted"
        { envOk with transport := fun _ _ => .ok ⟨404, .ok "junk"⟩ } w0).res =
      .error (.decodeError "invalid character") :=
  ⟨(makeRequest_ignores_http_status "ep" "key123" "limRed" "redacted" envOk w0
      500 200 (.ok "bodyOK")).1,
   (makeRequest_ignores_http_status "ep" "key123" "limRed" "redacted" envOk w0
      500 200 (.ok "bodyOK")).2.1 "bodyOK" rdOk (by decide) (by decide) rfl
      (by decide) (by decide),
   (makeRequest_ignores_http_status "ep" "key123" "limRed" "redacted" envOk w0
      404 200 (.ok "junk")).2.2 "junk" "invalid character" (by decide) (by decide)
      rfl (by decide)⟩

end Redacted
